import Mathlib

/-!
Verification of `tools/make_class_power.py` (MP-Gadget).

The script parses an MP-GenIC parameter file (via configobj/validate),
maps it to CLASS solver parameters, invokes the solver, and writes
transfer-function and power-spectrum tables, refusing to overwrite
existing files.

Shallow embedding conventions:
* Python floats are embedded as exact rationals (`ℚ`); the quantity
  `maxk`, which involves `math.pi`, is embedded by its rational
  coefficient of `π` (`PVal.pimul`).
* Python dicts whose keys are assigned at most once are embedded as
  association lists in insertion order (`aget` finds the entry).
* The filesystem is the set of existing paths (`List String`); writing
  a file adds its path.  Solver calls are opaque: the run trace records
  an `engine` event where `CLASS.ClassEngine` is constructed, a
  `checked p` event where `os.path.exists(p)` is consulted inside
  `_check_genic_config`, and a `write p` event for each `np.savetxt`.
* Python exceptions are the error values of `PyErr`.  Note that the
  statement `raise IOError("Refusing to write to existing file: ", transferfile)`
  at lines 182 and 197 of the source references the name `transferfile`,
  which is not bound in `make_class_power` (it is a parameter of
  `save_transfer`), so evaluating the raise's arguments raises
  `NameError` — the embedding reproduces this.
* The dynamic (string/float/int valued) layer models how configobj
  stores values: `configValidate` embeds the documented behaviour of
  `configobj.ConfigObj.validate` (an external library): it converts the
  value of every key that passes its check, applies declared defaults
  for absent keys, leaves the *raw string* in place for keys failing
  their check, and returns the per-key results; it never raises for a
  failed check.  The source discards the returned results.
-/

/-- A value stored in a (dynamically typed) parameter mapping.
`pimul q` denotes the real number `q * π`: the only irrational value the
script computes is `maxk = 2*math.pi/boxmpc*Ngrid*16`, which in exact
arithmetic is the rational `2/boxmpc*Ngrid*16` times `π`. -/
inductive PVal where
  | str (s : String)
  | num (q : ℚ)
  | int (n : ℤ)
  | pimul (q : ℚ)
  | qlist (l : List ℚ)
  | pair (a b : String)
  deriving DecidableEq

/-- Python exceptions that the script can raise. -/
inductive PyErr where
  | ioError (msg arg : String)
  | valueError (msg : String)
  | typeError
  | keyError (k : String)
  | nameError (n : String)
  | zeroDivisionError
  deriving DecidableEq

/-- Observable events of a run: existence checks performed by
`_check_genic_config`, the construction of the CLASS engine, and file
writes. -/
inductive Event where
  | checked (p : String)
  | engine
  | write (p : String)
  deriving DecidableEq

/-- The filesystem as the set of existing paths. -/
def FS : Type := List String

instance : DecidableEq FS := by unfold FS; infer_instance

/-- Model of `os.path.exists`. -/
def fsExists (fs : FS) (p : String) : Bool := List.contains fs p

/-- Model of `np.savetxt` to a fresh path: the path now exists. -/
def fsWrite (fs : FS) (p : String) : FS := p :: fs

/-- First entry of an association list with the given key (Python dict
lookup; all dicts in this script assign each key at most once). -/
def aget {α : Type} (k : String) : List (String × α) → Option α
  | [] => none
  | e :: rest => if k = e.1 then some e.2 else aget k rest

/-- The GenIC configuration after successful schema validation
(field names and order follow `GenICconfigspec`). -/
structure GenICConfig where
  FileWithInputSpectrum : String
  FileWithTransferFunction : String
  Ngrid : ℤ
  BoxSize : ℚ
  Omega0 : ℚ
  OmegaLambda : ℚ
  OmegaBaryon : ℚ
  HubbleParam : ℚ
  Redshift : ℚ
  Sigma8 : ℚ
  InputPowerRedshift : ℚ
  DifferentTransferFunctions : ℤ
  UnitLength_in_cm : ℚ
  Omega_fld : ℚ
  w0_fld : ℚ
  wa_fld : ℚ
  MNue : ℚ
  MNum : ℚ
  MNut : ℚ
  MWDM_Therm : ℚ
  PrimordialIndex : ℚ
  PrimordialAmp : ℚ
  CMBTemperature : ℚ

/-- The range constraints of `GenICconfigspec` (types are enforced by
the field types; `min`/`max` bounds of the `validate` checks are
inclusive). -/
def validGenIC (cfg : GenICConfig) : Prop :=
  0 ≤ cfg.Ngrid ∧
  0 ≤ cfg.BoxSize ∧
  0 ≤ cfg.Omega0 ∧ cfg.Omega0 ≤ 1 ∧
  0 ≤ cfg.OmegaLambda ∧ cfg.OmegaLambda ≤ 1 ∧
  0 ≤ cfg.OmegaBaryon ∧ cfg.OmegaBaryon ≤ 1 ∧
  0 ≤ cfg.HubbleParam ∧ cfg.HubbleParam ≤ 2 ∧
  0 ≤ cfg.Redshift ∧ cfg.Redshift ≤ 1100 ∧
  (cfg.DifferentTransferFunctions = 0 ∨ cfg.DifferentTransferFunctions = 1) ∧
  0 ≤ cfg.Omega_fld ∧ cfg.Omega_fld ≤ 1 ∧
  0 ≤ cfg.MNue ∧ 0 ≤ cfg.MNum ∧ 0 ≤ cfg.MNut ∧
  0 ≤ cfg.MWDM_Therm

instance (cfg : GenICConfig) : Decidable (validGenIC cfg) := by
  unfold validGenIC; infer_instance

/-- Source line 80: `omeganu = (config['MNue'] + config['MNum'] + config['MNut'])/93.14/h0**2`
(line 80). -/
def omegaNu (cfg : GenICConfig) : ℚ :=
  (cfg.MNue + cfg.MNum + cfg.MNut) / 93.14 / cfg.HubbleParam ^ 2

/-- The baryon fraction after the below-`0.001` substitution
(lines 81–82). -/
def obEff (cfg : GenICConfig) : ℚ :=
  if cfg.OmegaBaryon < 0.001 then 0.0486 else cfg.OmegaBaryon

/-- Two-decimal formatting of a nonnegative rational, the model of
Python `'%.2f' % x` used for the `m_ncdm` entry (line 95): round to the
nearest hundredth and print with exactly two fractional digits. -/
def fmt2 (q : ℚ) : String :=
  let n : ℤ := round (q * 100)
  let whole := n / 100
  let frac := (n % 100).toNat
  toString whole ++ (".") ++ (if frac < 10 then ("0") ++ toString frac else toString frac)

/-- The body of `_build_cosmology_params` (lines 76–118): the gparams
dict in insertion order.  Branches mirror the source:
`config['Omega_fld'] > 0`, `omeganu > 0`, `config['Sigma8'] > 0`. -/
def buildParams (cfg : GenICConfig) : List (String × PVal) :=
  let h0 := cfg.HubbleParam
  let ob := obEff cfg
  let ocdm := cfg.Omega0 - ob - omegaNu cfg
  let omegak := 1 - cfg.OmegaLambda - cfg.Omega0
  [(("h"), PVal.num h0), (("Omega_cdm"), PVal.num ocdm), (("Omega_b"), PVal.num ob),
   (("Omega_k"), PVal.num omegak), (("n_s"), PVal.num cfg.PrimordialIndex),
   (("T_cmb"), PVal.num cfg.CMBTemperature)]
  ++ [(("Omega_fld"), PVal.num cfg.Omega_fld)]
  ++ (if 0 < cfg.Omega_fld then
        [(("w0_fld"), PVal.num cfg.w0_fld), (("wa_fld"), PVal.num cfg.wa_fld)]
      else [])
  ++ (if 0 < omegaNu cfg then
        [(("m_ncdm"), PVal.str (fmt2 cfg.MNue ++ (",") ++ fmt2 cfg.MNum ++ (",") ++ fmt2 cfg.MNut)),
         (("N_ncdm"), PVal.int 3),
         (("N_ur"), PVal.num 0.00641),
         (("tol_ncdm_newtonian"), PVal.num 1e-5),
         (("tol_ncdm_synchronous"), PVal.num 1e-5),
         (("tol_ncdm_bg"), PVal.num 1e-10),
         (("l_max_ncdm"), PVal.int 50),
         (("ncdm_fluid_approximation"), PVal.int 3)]
      else [(("N_ur"), PVal.num 3.046)])
  ++ (if 0 < cfg.Sigma8 then [(("sigma8"), PVal.num cfg.Sigma8)]
      else [(("A_s"), PVal.num cfg.PrimordialAmp)])

/-- The function `_build_cosmology_params` as called by `make_class_power`: with
`HubbleParam = 0` the Python division `/h0**2` raises
`ZeroDivisionError` before any parameter set is produced. -/
def build_cosmology_params (cfg : GenICConfig) : Except PyErr (List (String × PVal)) :=
  if cfg.HubbleParam = 0 then Except.error PyErr.zeroDivisionError
  else Except.ok (buildParams cfg)

/-- Strip trailing slash characters. -/
def dropTrailingSlashes (l : List Char) : List Char :=
  (l.reverse.dropWhile (fun c => c = '/')).reverse

/-- Index of the last slash of a character list, if any. -/
def lastSlash : List Char → Option Nat
  | [] => none
  | c :: rest =>
    match lastSlash rest with
    | some i => some (i + 1)
    | none => if c = '/' then some 0 else none

/-- Model of `os.path.split(p)[0]` (POSIX): everything before the last slash,
with trailing slashes stripped unless the head is all slashes. -/
def splitDir (p : String) : String :=
  match lastSlash p.data with
  | none => ("")
  | some i =>
    let head := p.data.take (i + 1)
    if head.all (fun c => c = '/') then String.mk head
    else String.mk (dropTrailingSlashes head)

/-- Model of `os.path.join(d, p)` (POSIX, two arguments). -/
def pjoin (d p : String) : String :=
  if p.startsWith ("/") then p
  else if d = ("") then p
  else if d.endsWith ("/") then d ++ p
  else d ++ ("/") ++ p

/-- Python `str` of the float redshift used in the `"-"+str(red)` output
suffixes (lines 195 and 202); the exact rendering is irrelevant to every
claim, only that a suffix is appended. -/
def ratStr (q : ℚ) : String := toString q

/-- One iteration of the `for ff in filekeys` loop of
`_check_genic_config` (lines 63–67): reject an empty savefile name,
then refuse an existing path.  The `checked` event records the
`os.path.exists` call. -/
def checkFileKey (fs : FS) (name val : String) : Except PyErr Unit × List Event :=
  if val = ("") then (Except.error (PyErr.ioError ("No savefile specified for ") name), [])
  else if fsExists fs val then
    (Except.error (PyErr.ioError ("Refusing to write to existing file: ") val), [Event.checked val])
  else (Except.ok (), [Event.checked val])

/-- The unsupported-configuration checks of `_check_genic_config`
(lines 69–74). -/
def afterFileChecks (cfg : GenICConfig) : Except PyErr Unit :=
  if 0 < cfg.MWDM_Therm then
    Except.error (PyErr.valueError ("Warm dark matter power spectrum cutoff not yet supported."))
  else if cfg.DifferentTransferFunctions = 1 ∧ 0 ≤ cfg.InputPowerRedshift then
    Except.error (PyErr.valueError ("Rescaling with different transfer functions not supported."))
  else Except.ok ()

/-- The function `_check_genic_config` (lines 56–74), after the `config.validate`
call: `filekeys` is `['FileWithInputSpectrum']` plus
`'FileWithTransferFunction'` when `DifferentTransferFunctions == 1`,
each key's value is checked against the filesystem as written, then the
unsupported configurations are rejected. -/
def check_genic_config (cfg : GenICConfig) (fs : FS) : Except PyErr Unit × List Event :=
  let (r1, t1) := checkFileKey fs ("FileWithInputSpectrum") cfg.FileWithInputSpectrum
  match r1 with
  | Except.error e => (Except.error e, t1)
  | Except.ok _ =>
    if cfg.DifferentTransferFunctions = 1 then
      let (r2, t2) := checkFileKey fs ("FileWithTransferFunction") cfg.FileWithTransferFunction
      match r2 with
      | Except.error e => (Except.error e, t1 ++ t2)
      | Except.ok _ => (afterFileChecks cfg, t1 ++ t2)
    else (afterFileChecks cfg, t1)

/-- The constant `MPC_in_cm` (line 156). -/
def MPC_in_cm : ℚ := 3.085678e24

/-- Source line 157: `boxmpc = config['BoxSize'] / MPC_in_cm * config['UnitLength_in_cm']`
(line 157). -/
def boxmpc (cfg : GenICConfig) : ℚ :=
  cfg.BoxSize / MPC_in_cm * cfg.UnitLength_in_cm

/-- Source line 158: `maxk = 2*math.pi/boxmpc*config['Ngrid']*16`, represented
by its coefficient of `π`: the computed value is `maxkCoeff cfg * π`. -/
def maxkCoeff (cfg : GenICConfig) : ℚ :=
  2 / boxmpc cfg * (cfg.Ngrid : ℚ) * 16

/-- The fixed precision parameters (lines 142 and 145). -/
def precisionParams : List (String × PVal) :=
  [(("tol_background_integration"), PVal.num 1e-9),
   (("tol_perturb_integration"), PVal.num 1e-7),
   (("tol_thermo_integration"), PVal.num 1e-5),
   (("k_per_decade_for_pk"), PVal.int 20),
   (("k_per_decade_for_bao"), PVal.int 200),
   (("neglect_CMB_sources_below_visibility"), PVal.num 1e-30),
   (("transfer_neglect_late_source"), PVal.num 3000),
   (("l_max_g"), PVal.int 50),
   (("l_max_ur"), PVal.int 150),
   (("gauge"), PVal.str ("synchronous"))]

/-- Largest element of a nonempty rational list (`np.max(outputs)`). -/
def listMax : List ℚ → ℚ
  | [] => 0
  | [x] => x
  | x :: y :: rest => max x (listMax (y :: rest))

/-- The power-spectrum options (line 159). -/
def powerParams (cfg : GenICConfig) (outputs : List ℚ) : List (String × PVal) :=
  [(("output"), PVal.str ("dTk vTk mPk")),
   (("P_k_max_h/Mpc"), PVal.pimul (maxkCoeff cfg)),
   (("z_max_pk"), PVal.num (1 + listMax outputs)),
   (("z_pk"), PVal.qlist outputs),
   (("extra metric transfer functions"), PVal.str ("y"))]

/-- The all-or-nothing verbosity overrides (line 163). -/
def verbParams : List (String × PVal) :=
  [(("input_verbose"), PVal.int 1), (("background_verbose"), PVal.int 1),
   (("thermodynamics_verbose"), PVal.int 1), (("perturbations_verbose"), PVal.int 1),
   (("transfer_verbose"), PVal.int 1), (("primordial_verbose"), PVal.int 1),
   (("spectra_verbose"), PVal.int 1), (("nonlinear_verbose"), PVal.int 1),
   (("lensing_verbose"), PVal.int 1), (("output_verbose"), PVal.int 1)]

/-- The full parameter mapping handed to `CLASS.ClassEngine`
(lines 142–169): precision settings, then the cosmology parameters,
then the power-spectrum options, then optional verbosity, then the
external primordial-spectrum entries.  All keys are distinct, so the
successive Python `dict.update` calls are concatenation.  When an
external file is supplied, `pre_params["command"] = "cat ", external_pk`
binds the *tuple* `("cat ", external_pk)` (line 169); the file is never
opened. -/
def preParams (cfg : GenICConfig) (g : List (String × PVal)) (outputs : List ℚ)
    (verbose : Bool) (external_pk : Option String) : List (String × PVal) :=
  precisionParams ++ g ++ powerParams cfg outputs
  ++ (if verbose then verbParams else [])
  ++ (match external_pk with
      | some f => [(("P_k_ini"), PVal.str ("external_pk")), (("command"), PVal.pair ("cat ") f)]
      | none => [])

/-- The `if extraz is not None: for red in extraz` loop (lines 192–205):
per extra redshift, write the suffixed transfer-function file (the
conflict branch evaluates the unbound name `transferfile`, line 197),
then the suffixed power-spectrum file (conflict raises `IOError`,
line 204). -/
def writeExtra (sdir ftf fis : String) :
    List ℚ → FS → List Event → Except PyErr Unit × FS × List Event
  | [], fs, tr => (Except.ok (), fs, tr)
  | red :: rest, fs, tr =>
    let tfile := pjoin sdir (ftf ++ ("-") ++ ratStr red)
    if fsExists fs tfile then (Except.error (PyErr.nameError ("transferfile")), fs, tr)
    else
      let fs1 := fsWrite fs tfile
      let tr1 := tr ++ [Event.write tfile]
      let pkfile := pjoin sdir (fis ++ ("-") ++ ratStr red)
      if fsExists fs1 pkfile then
        (Except.error (PyErr.ioError ("Refusing to write to existing file: ") pkfile), fs1, tr1)
      else writeExtra sdir ftf fis rest (fsWrite fs1 pkfile) (tr1 ++ [Event.write pkfile])

/-- The body of `make_class_power` from the redshift selection onwards
(lines 141–205), shared by the typed and the dynamic entry points.
`tr0` is the trace accumulated by `_check_genic_config`.  Steps:
redshift selection (lines 149–151), outputs (152–154), `boxmpc` and
`maxk` (156–158; `2*math.pi/boxmpc` raises `ZeroDivisionError` when
`boxmpc == 0`), assembly of `pre_params`, engine construction (172),
`sdir = os.path.split(paramfile)[0]` (176), the transfer-function write
guarded by `os.path.exists(tfile)` whose conflict branch evaluates the
unbound name `transferfile` (179–183), the power-spectrum write guarded
by `os.path.exists(pkfile)` (188–191), and the extra-redshift loop
(192–205). -/
def classRunTail (paramfile : String) (cfg : GenICConfig) (g : List (String × PVal))
    (external_pk : Option String) (extraz : Option (List ℚ)) (verbose : Bool)
    (fs : FS) (tr0 : List Event) : Except PyErr Unit × FS × List Event :=
  let redshift := if 0 ≤ cfg.InputPowerRedshift then cfg.InputPowerRedshift else cfg.Redshift
  let outputs := redshift :: (extraz.getD [])
  if boxmpc cfg = 0 then (Except.error PyErr.zeroDivisionError, fs, tr0)
  else
    let _pp := preParams cfg g outputs verbose external_pk
    let tr1 := tr0 ++ [Event.engine]
    let sdir := splitDir paramfile
    let step1 : Except PyErr (FS × List Event) :=
      if cfg.DifferentTransferFunctions = 1 then
        let tfile := pjoin sdir cfg.FileWithTransferFunction
        if fsExists fs tfile then Except.error (PyErr.nameError ("transferfile"))
        else Except.ok (fsWrite fs tfile, tr1 ++ [Event.write tfile])
      else Except.ok (fs, tr1)
    match step1 with
    | Except.error e => (Except.error e, fs, tr1)
    | Except.ok (fs1, tr2) =>
      let pkfile := pjoin sdir cfg.FileWithInputSpectrum
      if fsExists fs1 pkfile then
        (Except.error (PyErr.ioError ("Refusing to write to existing file: ") pkfile), fs1, tr2)
      else
        let fs2 := fsWrite fs1 pkfile
        let tr3 := tr2 ++ [Event.write pkfile]
        match extraz with
        | none => (Except.ok (), fs2, tr3)
        | some zs => writeExtra sdir cfg.FileWithTransferFunction cfg.FileWithInputSpectrum zs fs2 tr3

/-- The function `make_class_power` on an already-validated (well-typed)
configuration: input sanitisation, cosmology-parameter mapping, then
the solver/write tail. -/
def make_class_power (paramfile : String) (cfg : GenICConfig)
    (external_pk : Option String) (extraz : Option (List ℚ)) (verbose : Bool)
    (fs : FS) : Except PyErr Unit × FS × List Event :=
  let (chk, tr0) := check_genic_config cfg fs
  match chk with
  | Except.error e => (Except.error e, fs, tr0)
  | Except.ok _ =>
    match build_cosmology_params cfg with
    | Except.error e => (Except.error e, fs, tr0)
    | Except.ok g => classRunTail paramfile cfg g external_pk extraz verbose fs tr0

/-- Declared type of a configspec entry. -/
inductive FType where
  | fstring
  | ffloat
  | finteger
  deriving DecidableEq

/-- One line of `GenICconfigspec`: name, checker type, inclusive bounds,
and default (already converted, as `validate.Validator` converts the
default before storing it). -/
structure FieldSpec where
  name : String
  ftype : FType
  fmin : Option ℚ
  fmax : Option ℚ
  fdefault : Option PVal

/-- The schema `GenICconfigspec` (lines 31–54), one entry per line. -/
def GenICconfigspec : List FieldSpec :=
  [⟨("FileWithInputSpectrum"), FType.fstring, none, none, some (PVal.str (""))⟩,
   ⟨("FileWithTransferFunction"), FType.fstring, none, none, some (PVal.str (""))⟩,
   ⟨("Ngrid"), FType.finteger, some 0, none, none⟩,
   ⟨("BoxSize"), FType.ffloat, some 0, none, none⟩,
   ⟨("Omega0"), FType.ffloat, some 0, some 1, none⟩,
   ⟨("OmegaLambda"), FType.ffloat, some 0, some 1, none⟩,
   ⟨("OmegaBaryon"), FType.ffloat, some 0, some 1, some (PVal.num 0.0486)⟩,
   ⟨("HubbleParam"), FType.ffloat, some 0, some 2, none⟩,
   ⟨("Redshift"), FType.ffloat, some 0, some 1100, none⟩,
   ⟨("Sigma8"), FType.ffloat, none, none, some (PVal.num (-1))⟩,
   ⟨("InputPowerRedshift"), FType.ffloat, none, none, some (PVal.num (-1))⟩,
   ⟨("DifferentTransferFunctions"), FType.finteger, some 0, some 1, some (PVal.int 1)⟩,
   ⟨("UnitLength_in_cm"), FType.ffloat, none, none, some (PVal.num 3.085678e21)⟩,
   ⟨("Omega_fld"), FType.ffloat, some 0, some 1, some (PVal.num 0)⟩,
   ⟨("w0_fld"), FType.ffloat, none, none, some (PVal.num (-1))⟩,
   ⟨("wa_fld"), FType.ffloat, none, none, some (PVal.num 0)⟩,
   ⟨("MNue"), FType.ffloat, some 0, none, some (PVal.num 0)⟩,
   ⟨("MNum"), FType.ffloat, some 0, none, some (PVal.num 0)⟩,
   ⟨("MNut"), FType.ffloat, some 0, none, some (PVal.num 0)⟩,
   ⟨("MWDM_Therm"), FType.ffloat, some 0, none, some (PVal.num 0)⟩,
   ⟨("PrimordialIndex"), FType.ffloat, none, none, some (PVal.num 0.971)⟩,
   ⟨("PrimordialAmp"), FType.ffloat, none, none, some (PVal.num 2.215e-9)⟩,
   ⟨("CMBTemperature"), FType.ffloat, none, none, some (PVal.num 2.7255)⟩]

/-- Value of a digit string. -/
def digitsVal : List Char → Option ℕ
  | [] => none
  | l => if l.all Char.isDigit then
           some (l.foldl (fun acc c => acc * 10 + (c.toNat - 48)) 0)
         else none

/-- Parse a decimal literal (optional sign, digits, optional fractional
part), the conversions accepted by `validate`'s float check for the
literals exercised here. -/
def parseDecimal (s : String) : Option ℚ :=
  let (sign, l) : ℚ × List Char :=
    match s.data with
    | c :: rest => if c = '-' then (-1, rest) else (1, s.data)
    | [] => (1, [])
  match l.splitOn '.' with
  | [a] => (digitsVal a).map (fun n => sign * n)
  | [a, b] =>
    match digitsVal a, digitsVal b with
    | some n, some f => some (sign * (n + (f : ℚ) / (10 : ℚ) ^ b.length))
    | _, _ => none
  | _ => none

/-- Parse an integer literal. -/
def parseInteger (s : String) : Option ℤ :=
  match s.data with
  | c :: rest => if c = '-' then (digitsVal rest).map (fun n => -(n : ℤ))
                 else (digitsVal s.data).map (fun n => (n : ℤ))
  | [] => none

/-- Inclusive range test of a `validate` check. -/
def inRange (f : FieldSpec) (q : ℚ) : Bool :=
  (f.fmin.all (fun m => decide (m ≤ q))) && (f.fmax.all (fun m => decide (q ≤ m)))

/-- Model of `validate.Validator.check` for one entry: convert the raw string per
the declared type and test the declared range; `none` means the check
failed (wrong type or out of range). -/
def vtorCheck (f : FieldSpec) (raw : String) : Option PVal :=
  match f.ftype with
  | FType.fstring => some (PVal.str raw)
  | FType.ffloat =>
    match parseDecimal raw with
    | some q => if inRange f q then some (PVal.num q) else none
    | none => none
  | FType.finteger =>
    match parseInteger raw with
    | some n => if inRange f (n : ℚ) then some (PVal.int n) else none
    | none => none

/-- Raw key-value pairs of the parameter file, as parsed by configobj. -/
def RawConfig : Type := List (String × String)

/-- Source line 59, `config.validate(vtor)`: the documented behaviour of the
external configobj library: for each configspec entry, a present key
that passes its check is converted in place; a present key that fails
its check keeps its raw string value and is reported `false`; an absent
key with a declared default receives the (converted) default and is
reported `true`; an absent key without a default stays absent and is
reported `false`.  The call returns the report; it raises nothing.
The source discards the returned report. -/
def configValidate (raw : RawConfig) : List (String × PVal) × List (String × Bool) :=
  (GenICconfigspec.filterMap (fun f =>
      match aget f.name raw with
      | some s =>
        match vtorCheck f s with
        | some v => some (f.name, v)
        | none => some (f.name, PVal.str s)
      | none => f.fdefault.map (fun d => (f.name, d))),
   GenICconfigspec.map (fun f =>
      (f.name,
       match aget f.name raw with
       | some s => (vtorCheck f s).isSome
       | none => f.fdefault.isSome)))

/-- Dynamically typed configuration as stored by configobj. -/
def DConfig : Type := List (String × PVal)

/-- Python `config[k]`: a missing key raises `KeyError`. -/
def dGet (c : DConfig) (k : String) : Except PyErr PVal :=
  match aget k c with
  | some v => Except.ok v
  | none => Except.error (PyErr.keyError k)

/-- Python `config[k] = v`. -/
def dSet (c : DConfig) (k : String) (v : PVal) : DConfig :=
  (k, v) :: c.filter (fun e => e.1 ≠ k)

/-- Numeric view of a dynamic value (Python int or float). -/
def asQ : PVal → Option ℚ
  | PVal.num q => some q
  | PVal.int n => some (n : ℚ)
  | _ => none

/-- Python `+`: numbers add, strings concatenate, a mix raises
`TypeError`. -/
def dAdd : PVal → PVal → Except PyErr PVal
  | PVal.num a, PVal.num b => Except.ok (PVal.num (a + b))
  | PVal.num a, PVal.int b => Except.ok (PVal.num (a + b))
  | PVal.int a, PVal.num b => Except.ok (PVal.num ((a : ℚ) + b))
  | PVal.int a, PVal.int b => Except.ok (PVal.int (a + b))
  | PVal.str a, PVal.str b => Except.ok (PVal.str (a ++ b))
  | _, _ => Except.error PyErr.typeError

/-- Python `-` on dynamic values. -/
def dSub (a b : PVal) : Except PyErr PVal :=
  match asQ a, asQ b with
  | some x, some y => Except.ok (PVal.num (x - y))
  | _, _ => Except.error PyErr.typeError

/-- Python `/` on dynamic values (true division; dividing by zero raises
`ZeroDivisionError`). -/
def dDiv (a b : PVal) : Except PyErr PVal :=
  match asQ a, asQ b with
  | some x, some y =>
    if y = 0 then Except.error PyErr.zeroDivisionError else Except.ok (PVal.num (x / y))
  | _, _ => Except.error PyErr.typeError

/-- Python `**2` on a dynamic value. -/
def dSq : PVal → Except PyErr PVal
  | PVal.num a => Except.ok (PVal.num (a ^ 2))
  | PVal.int a => Except.ok (PVal.int (a ^ 2))
  | _ => Except.error PyErr.typeError

/-- Python `v < q` with a numeric literal (a string operand raises
`TypeError` in Python 3). -/
def dLtQ (v : PVal) (q : ℚ) : Except PyErr Bool :=
  match asQ v with
  | some a => Except.ok (decide (a < q))
  | none => Except.error PyErr.typeError

/-- Python `v > q` with a numeric literal. -/
def dGtQ (v : PVal) (q : ℚ) : Except PyErr Bool :=
  match asQ v with
  | some a => Except.ok (decide (q < a))
  | none => Except.error PyErr.typeError

/-- Python `v >= q` with a numeric literal. -/
def dGeQ (v : PVal) (q : ℚ) : Except PyErr Bool :=
  match asQ v with
  | some a => Except.ok (decide (q ≤ a))
  | none => Except.error PyErr.typeError

/-- Python `v == q` with a numeric literal: never raises; a
non-numeric value simply compares unequal. -/
def dEqQ (v : PVal) (q : ℚ) : Bool :=
  match asQ v with
  | some a => decide (a = q)
  | none => false

/-- Python `v == s` with a string literal: never raises. -/
def dEqS (v : PVal) (s : String) : Bool :=
  match v with
  | PVal.str a => decide (a = s)
  | _ => false

/-- Python `'%.2f' % v` on a dynamic value. -/
def dFmt2 (v : PVal) : Except PyErr String :=
  match asQ v with
  | some a => Except.ok (fmt2 a)
  | none => Except.error PyErr.typeError

/-- One iteration of the `for ff in filekeys` loop on a dynamic config:
`config[ff] == ''` (never raises), then `os.path.exists(config[ff])`
(raises `TypeError` on a non-string). -/
def dynCheckFileKey (fs : FS) (c : DConfig) (ff : String) : Except PyErr Unit × List Event :=
  match dGet c ff with
  | Except.error e => (Except.error e, [])
  | Except.ok v =>
    if dEqS v ("") then (Except.error (PyErr.ioError ("No savefile specified for ") ff), [])
    else
      match v with
      | PVal.str s =>
        if fsExists fs s then
          (Except.error (PyErr.ioError ("Refusing to write to existing file: ") s), [Event.checked s])
        else (Except.ok (), [Event.checked s])
      | _ => (Except.error PyErr.typeError, [])

/-- Lines 69–74 of `_check_genic_config` on a dynamic config. -/
def dynAfterFileChecks (c : DConfig) : Except PyErr Unit := do
  let mwdm ← dGet c ("MWDM_Therm")
  let gt ← dGtQ mwdm 0
  if gt then
    Except.error (PyErr.valueError ("Warm dark matter power spectrum cutoff not yet supported."))
  else
    let dtf ← dGet c ("DifferentTransferFunctions")
    if dEqQ dtf 1 then do
      let ipr ← dGet c ("InputPowerRedshift")
      let ge ← dGeQ ipr 0
      if ge then
        Except.error (PyErr.valueError ("Rescaling with different transfer functions not supported."))
      else Except.ok ()
    else Except.ok ()

/-- The function `_check_genic_config` on the dynamic config produced by
`configValidate`: `filekeys` is assembled first (consulting
`config['DifferentTransferFunctions'] == 1.`, which never raises), then
each file key is checked, then the unsupported configurations. -/
def dynCheck (c : DConfig) (fs : FS) : Except PyErr Unit × List Event :=
  match dGet c ("DifferentTransferFunctions") with
  | Except.error e => (Except.error e, [])
  | Except.ok vdtf =>
    let (r1, t1) := dynCheckFileKey fs c ("FileWithInputSpectrum")
    match r1 with
    | Except.error e => (Except.error e, t1)
    | Except.ok _ =>
      if dEqQ vdtf 1 then
        let (r2, t2) := dynCheckFileKey fs c ("FileWithTransferFunction")
        match r2 with
        | Except.error e => (Except.error e, t1 ++ t2)
        | Except.ok _ => (dynAfterFileChecks c, t1 ++ t2)
      else (dynAfterFileChecks c, t1)

/-- The function `_build_cosmology_params` on a dynamic config, operation by
operation in source order (lines 79–118); any value left as a raw
string by a failed validation surfaces here as `TypeError` at its first
arithmetic use. -/
def dynBuild (c : DConfig) : Except PyErr (DConfig × List (String × PVal)) := do
  let h0 ← dGet c ("HubbleParam")
  let m1 ← dGet c ("MNue")
  let m2 ← dGet c ("MNum")
  let m3 ← dGet c ("MNut")
  let s1 ← dAdd m1 m2
  let s2 ← dAdd s1 m3
  let s3 ← dDiv s2 (PVal.num 93.14)
  let h2 ← dSq h0
  let omeganu ← dDiv s3 h2
  let ob0 ← dGet c ("OmegaBaryon")
  let lt ← dLtQ ob0 0.001
  let c1 := if lt then dSet c ("OmegaBaryon") (PVal.num 0.0486) else c
  let o0 ← dGet c1 ("Omega0")
  let ob ← dGet c1 ("OmegaBaryon")
  let d1 ← dSub o0 ob
  let ocdm ← dSub d1 omeganu
  let ol ← dGet c1 ("OmegaLambda")
  let d2 ← dSub (PVal.int 1) ol
  let omegak ← dSub d2 o0
  let ns ← dGet c1 ("PrimordialIndex")
  let tcmb ← dGet c1 ("CMBTemperature")
  let base := [(("h"), h0), (("Omega_cdm"), ocdm), (("Omega_b"), ob),
               (("Omega_k"), omegak), (("n_s"), ns), (("T_cmb"), tcmb)]
  let ofld ← dGet c1 ("Omega_fld")
  let gfld ← dGtQ ofld 0
  let fldPart ← if gfld then do
      let w0 ← dGet c1 ("w0_fld")
      let wa ← dGet c1 ("wa_fld")
      pure [(("w0_fld"), w0), (("wa_fld"), wa)]
    else pure []
  let gnu ← dGtQ omeganu 0
  let nuPart ← if gnu then do
      let f1 ← dFmt2 m1
      let f2 ← dFmt2 m2
      let f3 ← dFmt2 m3
      pure [(("m_ncdm"), PVal.str (f1 ++ (",") ++ f2 ++ (",") ++ f3)),
            (("N_ncdm"), PVal.int 3), (("N_ur"), PVal.num 0.00641),
            (("tol_ncdm_newtonian"), PVal.num 1e-5),
            (("tol_ncdm_synchronous"), PVal.num 1e-5),
            (("tol_ncdm_bg"), PVal.num 1e-10),
            (("l_max_ncdm"), PVal.int 50),
            (("ncdm_fluid_approximation"), PVal.int 3)]
    else pure [(("N_ur"), PVal.num 3.046)]
  let s8 ← dGet c1 ("Sigma8")
  let gs8 ← dGtQ s8 0
  let ampPart ← if gs8 then pure [(("sigma8"), s8)]
    else do
      let amp ← dGet c1 ("PrimordialAmp")
      pure [(("A_s"), amp)]
  pure (c1, base ++ [(("Omega_fld"), ofld)] ++ fldPart ++ nuPart ++ ampPart)

/-- Numeric read of a config entry for the post-mapping part of
`make_class_power` (redshift selection, box geometry): a leftover raw
string raises `TypeError` at its first numeric use there. -/
def dAsQ (c : DConfig) (k : String) : Except PyErr ℚ := do
  let v ← dGet c k
  match asQ v with
  | some q => Except.ok q
  | none => Except.error PyErr.typeError

/-- String read of a config entry. -/
def dAsS (c : DConfig) (k : String) : Except PyErr String := do
  let v ← dGet c k
  match v with
  | PVal.str s => Except.ok s
  | _ => Except.error PyErr.typeError

/-- Assemble the typed view of the fields that the tail of
`make_class_power` (lines 141–205) actually reads:
`InputPowerRedshift`, `Redshift`, `BoxSize`, `UnitLength_in_cm`,
`Ngrid`, `DifferentTransferFunctions` (consulted only through
`== 1.`, which never raises, so it is normalised to `1` or `0`),
`FileWithTransferFunction` and `FileWithInputSpectrum`.  The remaining
fields are not consulted by `classRunTail` and are filled with zeros. -/
def dynToTyped (c : DConfig) : Except PyErr GenICConfig := do
  let ipr ← dAsQ c ("InputPowerRedshift")
  let red ← dAsQ c ("Redshift")
  let box ← dAsQ c ("BoxSize")
  let unit ← dAsQ c ("UnitLength_in_cm")
  let ngrid ← dAsQ c ("Ngrid")
  let vdtf ← dGet c ("DifferentTransferFunctions")
  let ftf ← dAsS c ("FileWithTransferFunction")
  let fis ← dAsS c ("FileWithInputSpectrum")
  pure { FileWithInputSpectrum := fis, FileWithTransferFunction := ftf,
         Ngrid := ngrid.num / ngrid.den, BoxSize := box, Omega0 := 0, OmegaLambda := 0,
         OmegaBaryon := 0, HubbleParam := 0, Redshift := red, Sigma8 := 0,
         InputPowerRedshift := ipr,
         DifferentTransferFunctions := if dEqQ vdtf 1 then 1 else 0,
         UnitLength_in_cm := unit, Omega_fld := 0, w0_fld := 0, wa_fld := 0,
         MNue := 0, MNum := 0, MNut := 0, MWDM_Therm := 0,
         PrimordialIndex := 0, PrimordialAmp := 0, CMBTemperature := 0 }

/-- The function `make_class_power` from the raw parameter file onwards (lines
137–205): load and "validate" the config — the report returned by
`config.validate(vtor)` at line 59 is DISCARDED, exactly as in the
source — then `_check_genic_config`, `_build_cosmology_params`, and the
solver/write tail. -/
def make_class_power_loaded (paramfile : String) (raw : RawConfig)
    (external_pk : Option String) (extraz : Option (List ℚ)) (verbose : Bool)
    (fs : FS) : Except PyErr Unit × FS × List Event :=
  let (c, _report) := configValidate raw
  let (chk, tr0) := dynCheck c fs
  match chk with
  | Except.error e => (Except.error e, fs, tr0)
  | Except.ok _ =>
    match dynBuild c with
    | Except.error e => (Except.error e, fs, tr0)
    | Except.ok (c1, g) =>
      match dynToTyped c1 with
      | Except.error e => (Except.error e, fs, tr0)
      | Except.ok cfg => classRunTail paramfile cfg g external_pk extraz verbose fs tr0

/-- A well-formed example configuration: the spec's worked example
(`BoxSize=100000`, `UnitLength_in_cm=3.085678e21`, `Ngrid=256`) with a
standard flat cosmology and no massive neutrinos. -/
def cfgEx : GenICConfig :=
  { FileWithInputSpectrum := ("out.txt"), FileWithTransferFunction := ("trans.txt"),
    Ngrid := 256, BoxSize := 100000, Omega0 := 0.288, OmegaLambda := 0.712,
    OmegaBaryon := 0.0486, HubbleParam := 0.7, Redshift := 99, Sigma8 := -1,
    InputPowerRedshift := -1, DifferentTransferFunctions := 1,
    UnitLength_in_cm := 3.085678e21, Omega_fld := 0, w0_fld := -1, wa_fld := 0,
    MNue := 0, MNum := 0, MNut := 0, MWDM_Therm := 0,
    PrimordialIndex := 0.971, PrimordialAmp := 2.215e-9, CMBTemperature := 2.7255 }

/-- Configuration `cfgEx` with three massive neutrino species. -/
def cfgNu : GenICConfig :=
  { cfgEx with MNue := 0.06, MNum := 0.06, MNut := 0.06 }

/-- Whether a run outcome is a raised `ValueError`. -/
def raisesValueError : Except PyErr Unit → Bool
  | Except.error (PyErr.valueError _) => true
  | _ => false

/-- A raw parameter file violating the schema: `Omega0 = 2.0` is outside
the declared range `float(0,1)`; all other supplied fields are valid. -/
def rawEx : RawConfig :=
  [(("FileWithInputSpectrum"), ("out.txt")), (("FileWithTransferFunction"), ("trans.txt")),
   (("Ngrid"), ("256")), (("BoxSize"), ("100000")), (("Omega0"), ("2.0")),
   (("OmegaLambda"), ("0.712")), (("OmegaBaryon"), ("0.0486")),
   (("HubbleParam"), ("0.7")), (("Redshift"), ("99"))]

/-- The filesystem left by a first successful run of `cfgEx` with the
parameter file in subdirectory `d`: both outputs exist at their joined
paths. -/
def fsAfterFirstRun : FS := [("d/out.txt"), ("d/trans.txt")]

/-- A schema-valid configuration with `MWDM_Therm > 0` whose
`FileWithInputSpectrum` is left at its declared default `''`. -/
def cfg7 : GenICConfig :=
  { cfgEx with MWDM_Therm := 1, FileWithInputSpectrum := ("") }

/-- A schema-valid configuration with `MWDM_Therm > 0` that passes the
savefile checks. -/
def cfg7w : GenICConfig := { cfgEx with MWDM_Therm := 1 }

/-- Claim C1 (code bug, evaluated at the failing input `rawEx`): the
validation report does flag `Omega0` as failing, but because line 59
discards the report of `config.validate(vtor)`, the run is NOT aborted
with a validation failure naming the field: `_check_genic_config`
completes (both `checked` events occur), the cosmology-parameter
mapping begins, and the run dies there with a `TypeError` when the raw
string left in `Omega0` is used in the `Omega_cdm` subtraction. -/
theorem mp_C1_run :
    aget ("Omega0") (configValidate rawEx).2 = some false ∧
    make_class_power_loaded ("params.genic") rawEx none none false [] =
      (Except.error PyErr.typeError, ([] : FS),
       [Event.checked ("out.txt"), Event.checked ("trans.txt")]) :=
  ⟨by with_unfolding_all rfl, by with_unfolding_all rfl⟩

/-- Claim C2 (code bug, evaluated at the failing input): with the
parameter file in a subdirectory and both output files already present
from a first run, the second run passes the startup checks (they test
the unjoined paths), performs solver work, and then fails — but with
`NameError` (the raise at line 182 references the unbound name
`transferfile`), not with a file-conflict refusal naming the existing
destination.  The no-new-bytes half of the claim does hold: the
returned filesystem is unchanged and the trace contains no write. -/
theorem mp_C2_run :
    make_class_power ("d/params.genic") cfgEx none none false fsAfterFirstRun =
      (Except.error (PyErr.nameError ("transferfile")), fsAfterFirstRun,
       [Event.checked ("out.txt"), Event.checked ("trans.txt"), Event.engine]) := by
  with_unfolding_all rfl

/-- Claim C3: for every valid configuration (whose mapping does not
abort on a zero Hubble parameter), the derived set satisfies
`Omega_cdm + OmegaBaryon_effective + Omega_nu = Omega0` exactly, with
`Omega_nu = (MNue+MNum+MNut)/93.14/HubbleParam^2` and
`OmegaBaryon_effective` the baryon fraction after the below-`0.001`
substitution. -/
theorem mp_C3_sum (cfg : GenICConfig) (hv : validGenIC cfg) (hh : cfg.HubbleParam ≠ 0) :
    aget ("Omega_cdm") (buildParams cfg) = some (PVal.num (cfg.Omega0 - obEff cfg - omegaNu cfg)) ∧
    aget ("Omega_b") (buildParams cfg) = some (PVal.num (obEff cfg)) ∧
    (cfg.Omega0 - obEff cfg - omegaNu cfg) + obEff cfg +
      (cfg.MNue + cfg.MNum + cfg.MNut) / 93.14 / cfg.HubbleParam ^ 2 = cfg.Omega0 := by
  refine ⟨?_, ?_, ?_⟩
  · simp [buildParams, aget]
  · simp [buildParams, aget]
  · simp only [omegaNu]
    ring

theorem mp_C3_sum_witness :
    validGenIC cfgEx ∧ cfgEx.HubbleParam ≠ 0 ∧
    (aget ("Omega_cdm") (buildParams cfgEx) = some (PVal.num (cfgEx.Omega0 - obEff cfgEx - omegaNu cfgEx)) ∧
     aget ("Omega_b") (buildParams cfgEx) = some (PVal.num (obEff cfgEx)) ∧
     (cfgEx.Omega0 - obEff cfgEx - omegaNu cfgEx) + obEff cfgEx +
       (cfgEx.MNue + cfgEx.MNum + cfgEx.MNut) / 93.14 / cfgEx.HubbleParam ^ 2 = cfgEx.Omega0) :=
  ⟨by with_unfolding_all decide, by with_unfolding_all decide,
   mp_C3_sum cfgEx (by with_unfolding_all decide) (by with_unfolding_all decide)⟩

/-- Claim C4: for every valid configuration, an input baryon fraction
at least `0.001` passes through to `Omega_b` unchanged, while an input
below `0.001` makes the value used downstream — both in `Omega_b` and
in the `Omega_cdm` subtraction — exactly `0.0486`. -/
theorem mp_C4_baryon (cfg : GenICConfig) (hv : validGenIC cfg) (hh : cfg.HubbleParam ≠ 0) :
    (0.001 ≤ cfg.OmegaBaryon →
      aget ("Omega_b") (buildParams cfg) = some (PVal.num cfg.OmegaBaryon)) ∧
    (cfg.OmegaBaryon < 0.001 →
      aget ("Omega_b") (buildParams cfg) = some (PVal.num 0.0486) ∧
      aget ("Omega_cdm") (buildParams cfg) = some (PVal.num (cfg.Omega0 - 0.0486 - omegaNu cfg))) := by
  refine ⟨fun h => ?_, fun h => ⟨?_, ?_⟩⟩
  · have hn : ¬ cfg.OmegaBaryon < 0.001 := not_lt.mpr h
    simp [buildParams, aget, obEff, hn]
  · simp [buildParams, aget, obEff, h]
  · simp [buildParams, aget, obEff, h]

theorem mp_C4_baryon_witness :
    validGenIC cfgEx ∧ cfgEx.HubbleParam ≠ 0 ∧ 0.001 ≤ cfgEx.OmegaBaryon ∧
    aget ("Omega_b") (buildParams cfgEx) = some (PVal.num cfgEx.OmegaBaryon) :=
  ⟨by with_unfolding_all decide, by with_unfolding_all decide, by with_unfolding_all decide,
   (mp_C4_baryon cfgEx (by with_unfolding_all decide) (by with_unfolding_all decide)).1
     (by with_unfolding_all decide)⟩

/-- Claim C5: for every valid configuration (with the mapping not
aborting on a zero Hubble parameter), `omeganu > 0` iff at least one
neutrino mass is positive; in that case the derived set carries
`N_ur = 0.00641`, `N_ncdm = 3` and `m_ncdm` equal to the comma-joined
two-decimal formatting of the three masses; otherwise it carries
`N_ur = 3.046` and no massive-neutrino entries. -/
theorem mp_C5_neutrinos (cfg : GenICConfig) (hv : validGenIC cfg) (hh : cfg.HubbleParam ≠ 0) :
    (0 < omegaNu cfg ↔ (0 < cfg.MNue ∨ 0 < cfg.MNum ∨ 0 < cfg.MNut)) ∧
    (0 < omegaNu cfg →
      aget ("N_ur") (buildParams cfg) = some (PVal.num 0.00641) ∧
      aget ("N_ncdm") (buildParams cfg) = some (PVal.int 3) ∧
      aget ("m_ncdm") (buildParams cfg) =
        some (PVal.str (fmt2 cfg.MNue ++ (",") ++ fmt2 cfg.MNum ++ (",") ++ fmt2 cfg.MNut))) ∧
    (¬ 0 < omegaNu cfg →
      aget ("N_ur") (buildParams cfg) = some (PVal.num 3.046) ∧
      aget ("N_ncdm") (buildParams cfg) = none ∧
      aget ("m_ncdm") (buildParams cfg) = none) := by
  obtain ⟨-, -, -, -, -, -, -, -, hH0, -, -, -, -, -, -, hm1, hm2, hm3, -⟩ := hv
  have h0pos : 0 < cfg.HubbleParam := lt_of_le_of_ne hH0 (Ne.symm hh)
  have hden : (0 : ℚ) < 93.14 * cfg.HubbleParam ^ 2 := by positivity
  refine ⟨?_, fun h => ?_, fun h => ?_⟩
  · rw [omegaNu, div_div, div_pos_iff]
    constructor
    · rintro (⟨hs, -⟩ | ⟨-, hb⟩)
      · by_contra hc
        push_neg at hc
        obtain ⟨hc1, hc2, hc3⟩ := hc
        linarith
      · linarith
    · rintro (h | h | h)
      · exact Or.inl ⟨by linarith, hden⟩
      · exact Or.inl ⟨by linarith, hden⟩
      · exact Or.inl ⟨by linarith, hden⟩
  · by_cases hf : 0 < cfg.Omega_fld <;> by_cases hs : 0 < cfg.Sigma8 <;>
      simp [buildParams, aget, h, hf, hs]
  · by_cases hf : 0 < cfg.Omega_fld <;> by_cases hs : 0 < cfg.Sigma8 <;>
      simp [buildParams, aget, h, hf, hs]

theorem mp_C5_neutrinos_witness :
    validGenIC cfgNu ∧ cfgNu.HubbleParam ≠ 0 ∧
    ((0 < omegaNu cfgNu ↔ (0 < cfgNu.MNue ∨ 0 < cfgNu.MNum ∨ 0 < cfgNu.MNut)) ∧
     (0 < omegaNu cfgNu →
       aget ("N_ur") (buildParams cfgNu) = some (PVal.num 0.00641) ∧
       aget ("N_ncdm") (buildParams cfgNu) = some (PVal.int 3) ∧
       aget ("m_ncdm") (buildParams cfgNu) =
         some (PVal.str (fmt2 cfgNu.MNue ++ (",") ++ fmt2 cfgNu.MNum ++ (",") ++ fmt2 cfgNu.MNut))) ∧
     (¬ 0 < omegaNu cfgNu →
       aget ("N_ur") (buildParams cfgNu) = some (PVal.num 3.046) ∧
       aget ("N_ncdm") (buildParams cfgNu) = none ∧
       aget ("m_ncdm") (buildParams cfgNu) = none)) :=
  ⟨by with_unfolding_all decide, by with_unfolding_all decide,
   mp_C5_neutrinos cfgNu (by with_unfolding_all decide) (by with_unfolding_all decide)⟩

/-- Claim C6: for every valid configuration (with the mapping not
aborting on a zero Hubble parameter), exactly one of `sigma8` and `A_s`
appears in the derived set, determined solely by whether `Sigma8 > 0`:
`sigma8 = Sigma8` when positive, else `A_s = PrimordialAmp`. -/
theorem mp_C6_amplitude (cfg : GenICConfig) (hv : validGenIC cfg) (hh : cfg.HubbleParam ≠ 0) :
    (0 < cfg.Sigma8 →
      aget ("sigma8") (buildParams cfg) = some (PVal.num cfg.Sigma8) ∧
      aget ("A_s") (buildParams cfg) = none) ∧
    (¬ 0 < cfg.Sigma8 →
      aget ("A_s") (buildParams cfg) = some (PVal.num cfg.PrimordialAmp) ∧
      aget ("sigma8") (buildParams cfg) = none) := by
  constructor <;> intro h <;>
    by_cases hf : 0 < cfg.Omega_fld <;> by_cases hn : 0 < omegaNu cfg <;>
      simp [buildParams, aget, h, hf, hn]

theorem mp_C6_amplitude_witness :
    validGenIC cfgEx ∧ cfgEx.HubbleParam ≠ 0 ∧ ¬ 0 < cfgEx.Sigma8 ∧
    aget ("A_s") (buildParams cfgEx) = some (PVal.num cfgEx.PrimordialAmp) ∧
    aget ("sigma8") (buildParams cfgEx) = none :=
  ⟨by with_unfolding_all decide, by with_unfolding_all decide, by with_unfolding_all decide,
   (mp_C6_amplitude cfgEx (by with_unfolding_all decide) (by with_unfolding_all decide)).2
     (by with_unfolding_all decide)⟩

set_option maxRecDepth 8000 in
/-- Claim C8: the maximum wavenumber passed to the solver under
`P_k_max_h/Mpc` is `2π/boxMpc × Ngrid × 16` with
`boxMpc = BoxSize × UnitLength_in_cm / 3.085678e24`; at the worked
example (`BoxSize = 100000`, `UnitLength_in_cm = 3.085678e21`,
`Ngrid = 256`) this gives `boxMpc = 100` and a bound of about `257.3`
(strictly between `257` and `258`). -/
theorem mp_C8_maxk (cfg : GenICConfig) (outputs : List ℚ) (vb : Bool) (ext : Option String)
    (hv : validGenIC cfg) :
    aget ("P_k_max_h/Mpc") (preParams cfg (buildParams cfg) outputs vb ext) =
      some (PVal.pimul (maxkCoeff cfg)) ∧
    boxmpc cfg = cfg.BoxSize * cfg.UnitLength_in_cm / 3.085678e24 ∧
    ((maxkCoeff cfg : ℚ) : ℝ) * Real.pi =
      2 * Real.pi / ((boxmpc cfg : ℚ) : ℝ) * ((cfg.Ngrid : ℤ) : ℝ) * 16 ∧
    boxmpc cfgEx = 100 ∧
    257 < ((maxkCoeff cfgEx : ℚ) : ℝ) * Real.pi ∧
    ((maxkCoeff cfgEx : ℚ) : ℝ) * Real.pi < 258 := by
  have hco : maxkCoeff cfgEx = 2048 / 25 := by with_unfolding_all decide
  refine ⟨?_, ?_, ?_, ?_, ?_, ?_⟩
  · by_cases hf : 0 < cfg.Omega_fld <;> by_cases hn : 0 < omegaNu cfg <;>
      by_cases hs : 0 < cfg.Sigma8 <;>
      simp [preParams, buildParams, precisionParams, powerParams, aget, hf, hn, hs]
  · simp only [boxmpc, MPC_in_cm]
    ring
  · simp only [maxkCoeff]
    push_cast
    ring
  · with_unfolding_all decide
  · rw [hco]
    push_cast
    nlinarith [Real.pi_gt_d6, Real.pi_lt_d6]
  · rw [hco]
    push_cast
    nlinarith [Real.pi_gt_d6, Real.pi_lt_d6]

theorem mp_C8_maxk_witness :
    validGenIC cfgEx ∧
    (aget ("P_k_max_h/Mpc") (preParams cfgEx (buildParams cfgEx) [99] false none) =
       some (PVal.pimul (maxkCoeff cfgEx)) ∧
     boxmpc cfgEx = cfgEx.BoxSize * cfgEx.UnitLength_in_cm / 3.085678e24 ∧
     ((maxkCoeff cfgEx : ℚ) : ℝ) * Real.pi =
       2 * Real.pi / ((boxmpc cfgEx : ℚ) : ℝ) * ((cfgEx.Ngrid : ℤ) : ℝ) * 16 ∧
     boxmpc cfgEx = 100 ∧
     257 < ((maxkCoeff cfgEx : ℚ) : ℝ) * Real.pi ∧
     ((maxkCoeff cfgEx : ℚ) : ℝ) * Real.pi < 258) :=
  ⟨by with_unfolding_all decide,
   mp_C8_maxk cfgEx [99] false none (by with_unfolding_all decide)⟩

set_option maxRecDepth 8000 in
/-- Claim C9: whenever an external primordial-spectrum file is
supplied, the parameter mapping handed to the solver engine binds
`P_k_ini` to the string `"external_pk"` and binds `command` to the
unevaluated tuple `("cat ", <file>)` — not to an executed command nor
to the file's contents (the embedding of the script nowhere reads the
file: `preParams` does not depend on the filesystem at all). -/
theorem mp_C9_external (cfg : GenICConfig) (outputs : List ℚ) (vb : Bool) (f : String)
    (hv : validGenIC cfg) :
    aget ("P_k_ini") (preParams cfg (buildParams cfg) outputs vb (some f)) =
      some (PVal.str ("external_pk")) ∧
    aget ("command") (preParams cfg (buildParams cfg) outputs vb (some f)) =
      some (PVal.pair ("cat ") f) := by
  by_cases hf : 0 < cfg.Omega_fld <;> by_cases hn : 0 < omegaNu cfg <;>
    by_cases hs : 0 < cfg.Sigma8 <;> cases vb <;>
    simp [preParams, buildParams, precisionParams, powerParams, verbParams, aget, hf, hn, hs]

theorem mp_C9_external_witness :
    validGenIC cfgEx ∧
    (aget ("P_k_ini") (preParams cfgEx (buildParams cfgEx) [99] false (some ("pk.dat"))) =
       some (PVal.str ("external_pk")) ∧
     aget ("command") (preParams cfgEx (buildParams cfgEx) [99] false (some ("pk.dat"))) =
       some (PVal.pair ("cat ") ("pk.dat"))) :=
  ⟨by with_unfolding_all decide,
   mp_C9_external cfgEx [99] false ("pk.dat") (by with_unfolding_all decide)⟩

/-- Claim C7 counterexample: a (schema-valid) config with
`MWDM_Therm > 0` but an empty `FileWithInputSpectrum` makes the check
step raise `IOError` at the savefile check (lines 63–65), which runs
FIRST — not the claimed policy `ValueError`. -/
theorem mp_C7_counterexample :
    validGenIC cfg7 ∧ 0 < cfg7.MWDM_Therm ∧
    raisesValueError (make_class_power ("params.genic") cfg7 none none false []).1 = false ∧
    (make_class_power ("params.genic") cfg7 none none false []).1 =
      Except.error (PyErr.ioError ("No savefile specified for ") ("FileWithInputSpectrum")) :=
  ⟨by with_unfolding_all decide, by with_unfolding_all decide,
   by with_unfolding_all rfl, by with_unfolding_all rfl⟩

/-- Claim C7 (amended): for every config that passes the earlier
savefile checks (non-empty, non-existing output paths), `MWDM_Therm > 0`
makes the check step raise the warm-dark-matter `ValueError`, and
otherwise `DifferentTransferFunctions = 1` together with
`InputPowerRedshift ≥ 0` raises the rescaling `ValueError`; in both
cases the run ends with the filesystem untouched and a trace containing
no solver invocation and no write. -/
theorem mp_C7_amended (cfg : GenICConfig) (pf : String) (ext : Option String)
    (ez : Option (List ℚ)) (vb : Bool) (fs : FS)
    (hv : validGenIC cfg)
    (h1 : cfg.FileWithInputSpectrum ≠ (""))
    (h2 : fsExists fs cfg.FileWithInputSpectrum = false)
    (h3 : cfg.DifferentTransferFunctions = 1 →
      cfg.FileWithTransferFunction ≠ ("") ∧ fsExists fs cfg.FileWithTransferFunction = false) :
    (0 < cfg.MWDM_Therm →
      make_class_power pf cfg ext ez vb fs =
        (Except.error (PyErr.valueError ("Warm dark matter power spectrum cutoff not yet supported.")),
         fs,
         Event.checked cfg.FileWithInputSpectrum ::
           (if cfg.DifferentTransferFunctions = 1 then [Event.checked cfg.FileWithTransferFunction]
            else []))) ∧
    (¬ 0 < cfg.MWDM_Therm → cfg.DifferentTransferFunctions = 1 → 0 ≤ cfg.InputPowerRedshift →
      make_class_power pf cfg ext ez vb fs =
        (Except.error (PyErr.valueError ("Rescaling with different transfer functions not supported.")),
         fs,
         [Event.checked cfg.FileWithInputSpectrum, Event.checked cfg.FileWithTransferFunction])) := by
  constructor
  · intro hm
    by_cases hdtf : cfg.DifferentTransferFunctions = 1
    · obtain ⟨h3a, h3b⟩ := h3 hdtf
      simp [make_class_power, check_genic_config, checkFileKey, afterFileChecks,
            h1, h2, hdtf, h3a, h3b, hm]
    · simp [make_class_power, check_genic_config, checkFileKey, afterFileChecks,
            h1, h2, hdtf, hm]
  · intro hm hdtf hipr
    obtain ⟨h3a, h3b⟩ := h3 hdtf
    simp [make_class_power, check_genic_config, checkFileKey, afterFileChecks,
          h1, h2, hdtf, h3a, h3b, hm, hipr]

theorem mp_C7_amended_witness :
    validGenIC cfg7w ∧ cfg7w.FileWithInputSpectrum ≠ ("") ∧
    fsExists [] cfg7w.FileWithInputSpectrum = false ∧
    (cfg7w.DifferentTransferFunctions = 1 →
      cfg7w.FileWithTransferFunction ≠ ("") ∧ fsExists [] cfg7w.FileWithTransferFunction = false) ∧
    0 < cfg7w.MWDM_Therm ∧
    make_class_power ("params.genic") cfg7w none none false [] =
      (Except.error (PyErr.valueError ("Warm dark matter power spectrum cutoff not yet supported.")),
       ([] : FS),
       Event.checked cfg7w.FileWithInputSpectrum ::
         (if cfg7w.DifferentTransferFunctions = 1 then [Event.checked cfg7w.FileWithTransferFunction]
          else [])) :=
  ⟨by with_unfolding_all decide, by with_unfolding_all decide, by with_unfolding_all decide,
   by with_unfolding_all decide, by with_unfolding_all decide,
   (mp_C7_amended cfg7w ("params.genic") none none false []
      (by with_unfolding_all decide) (by with_unfolding_all decide)
      (by with_unfolding_all decide) (by with_unfolding_all decide)).1
     (by with_unfolding_all decide)⟩

/-- A nonempty string has positive length. -/
theorem strLenPos (d : String) (h : d ≠ ("")) : 0 < d.length := by
  cases d with
  | mk data =>
    cases data with
    | nil => exact absurd rfl h
    | cons c rest => simp [String.length]

/-- Joining a relative path onto a nonempty directory yields a
different path. -/
theorem pjoin_ne (d p : String) (hd : d ≠ ("")) (hp : p.startsWith ("/") = false) :
    pjoin d p ≠ p := by
  have hdl : 0 < d.length := strLenPos d hd
  unfold pjoin
  rw [hp]
  simp only [Bool.false_eq_true, if_false, hd, if_neg]
  by_cases he : d.endsWith ("/")
  · simp only [he, if_true]
    intro hcontra
    have := congrArg String.length hcontra
    rw [String.length_append] at this
    omega
  · simp only [he, Bool.false_eq_true, if_false]
    intro hcontra
    have := congrArg String.length hcontra
    rw [String.length_append, String.length_append] at this
    omega

/-- Events already traced survive the extra-redshift write loop. -/
theorem writeExtra_mem (sdir ftf fis : String) (zs : List ℚ) (fs : FS) (tr : List Event)
    (e : Event) (he : e ∈ tr) :
    e ∈ (writeExtra sdir ftf fis zs fs tr).2.2 := by
  induction zs generalizing fs tr with
  | nil => simpa [writeExtra] using he
  | cons z rest ih =>
    by_cases h1 : fsExists fs (pjoin sdir (ftf ++ ("-") ++ ratStr z)) = true
    · simpa [writeExtra, h1] using he
    · by_cases h2 : fsExists (fsWrite fs (pjoin sdir (ftf ++ ("-") ++ ratStr z)))
          (pjoin sdir (fis ++ ("-") ++ ratStr z)) = true
      · simp only [writeExtra, h1, h2]
        simp [he]
      · simp only [writeExtra, h1, h2]
        simp only [Bool.not_eq_true] at h1 h2
        simp only [h1, h2, Bool.false_eq_true, if_false]
        apply ih
        simp [he]

/-- A run of the post-check tail that returns success has written the
power-spectrum file at the directory-joined path. -/
theorem classRunTail_ok_write (pf : String) (cfg : GenICConfig) (g : List (String × PVal))
    (ext : Option String) (ez : Option (List ℚ)) (vb : Bool) (fs : FS) (tr0 : List Event)
    (hok : (classRunTail pf cfg g ext ez vb fs tr0).1 = Except.ok ()) :
    Event.write (pjoin (splitDir pf) cfg.FileWithInputSpectrum) ∈
      (classRunTail pf cfg g ext ez vb fs tr0).2.2 := by
  by_cases hb : boxmpc cfg = 0
  · simp [classRunTail, hb] at hok
  · by_cases hdtf : cfg.DifferentTransferFunctions = 1
    · by_cases hex1 : fsExists fs (pjoin (splitDir pf) cfg.FileWithTransferFunction) = true
      · simp [classRunTail, hb, hdtf, hex1] at hok
      · by_cases hex2 : fsExists (fsWrite fs (pjoin (splitDir pf) cfg.FileWithTransferFunction))
            (pjoin (splitDir pf) cfg.FileWithInputSpectrum) = true
        · simp [classRunTail, hb, hdtf, hex1, hex2] at hok
        · cases ez with
          | none => simp [classRunTail, hb, hdtf, hex1, hex2]
          | some zs =>
            simp only [classRunTail, hb, hdtf, hex1, hex2]
            simp only [Bool.not_eq_true] at hex1 hex2
            simp only [hex1, hex2, Bool.false_eq_true, if_false, if_pos, if_true]
            apply writeExtra_mem
            simp
    · by_cases hex2 : fsExists fs (pjoin (splitDir pf) cfg.FileWithInputSpectrum) = true
      · simp [classRunTail, hb, hdtf, hex2] at hok
      · cases ez with
        | none => simp [classRunTail, hb, hdtf, hex2]
        | some zs =>
          simp only [classRunTail, hb, hdtf, hex2]
          simp only [Bool.not_eq_true] at hex2
          simp only [hex2, Bool.false_eq_true, if_false]
          apply writeExtra_mem
          simp

/-- Claim C10: the startup refusal check consults the output paths
exactly as written in the config (the `checked` event carries the raw
`FileWithInputSpectrum`), while the write that a successful run
performs targets that path joined onto the parameter file's directory;
when the parameter file lies in a non-empty directory and the
configured path is relative, these are different filesystem paths. -/
theorem mp_C10_paths (cfg : GenICConfig) (pf : String) (fs : FS) (ext : Option String)
    (ez : Option (List ℚ)) (vb : Bool)
    (hv : validGenIC cfg) (hsd : splitDir pf ≠ (""))
    (hrel : cfg.FileWithInputSpectrum.startsWith ("/") = false)
    (hne : cfg.FileWithInputSpectrum ≠ ("")) :
    Event.checked cfg.FileWithInputSpectrum ∈ (check_genic_config cfg fs).2 ∧
    pjoin (splitDir pf) cfg.FileWithInputSpectrum ≠ cfg.FileWithInputSpectrum ∧
    ((make_class_power pf cfg ext ez vb fs).1 = Except.ok () →
      Event.write (pjoin (splitDir pf) cfg.FileWithInputSpectrum) ∈
        (make_class_power pf cfg ext ez vb fs).2.2) := by
  refine ⟨?_, pjoin_ne (splitDir pf) cfg.FileWithInputSpectrum hsd hrel, ?_⟩
  · by_cases hex : fsExists fs cfg.FileWithInputSpectrum = true
    · simp [check_genic_config, checkFileKey, hne, hex]
    · by_cases hdtf : cfg.DifferentTransferFunctions = 1
      · simp [check_genic_config, checkFileKey, hne, hex, hdtf]
        split <;> simp
      · simp [check_genic_config, checkFileKey, hne, hex, hdtf]
  · intro hok
    rcases hc : check_genic_config cfg fs with ⟨chk, tr0⟩
    cases chk with
    | error e =>
      rw [make_class_power, hc] at hok
      simp at hok
    | ok u =>
      by_cases hh0 : cfg.HubbleParam = 0
      · rw [make_class_power, hc] at hok
        simp [build_cosmology_params, hh0] at hok
      · rw [make_class_power, hc] at hok ⊢
        simp only [build_cosmology_params, hh0, Bool.false_eq_true, if_false] at hok ⊢
        exact classRunTail_ok_write pf cfg (buildParams cfg) ext ez vb fs tr0 hok

theorem mp_C10_paths_witness :
    validGenIC cfgEx ∧ splitDir ("d/params.genic") ≠ ("") ∧
    cfgEx.FileWithInputSpectrum.startsWith ("/") = false ∧
    cfgEx.FileWithInputSpectrum ≠ ("") ∧
    (Event.checked cfgEx.FileWithInputSpectrum ∈ (check_genic_config cfgEx []).2 ∧
     pjoin (splitDir ("d/params.genic")) cfgEx.FileWithInputSpectrum ≠ cfgEx.FileWithInputSpectrum ∧
     ((make_class_power ("d/params.genic") cfgEx none none false []).1 = Except.ok () →
       Event.write (pjoin (splitDir ("d/params.genic")) cfgEx.FileWithInputSpectrum) ∈
         (make_class_power ("d/params.genic") cfgEx none none false []).2.2)) :=
  ⟨by with_unfolding_all decide, by with_unfolding_all decide, by with_unfolding_all decide,
   by with_unfolding_all decide,
   mp_C10_paths cfgEx ("d/params.genic") [] none none false
     (by with_unfolding_all decide) (by with_unfolding_all decide)
     (by with_unfolding_all decide) (by with_unfolding_all decide)⟩
